import Mathlib

/-!
Shallow embedding of the `migration-learning` repository:

* `src/models/user.py` — the declarative `User` model: eleven mapped
  columns with constraints, client-side (`default=`) and database-side
  (`server_default=` / `onupdate=`) default rules, and three compound
  indexes declared in `__table_args__`, plus `User.__repr__`.
* `src/verify_migration.py` — the one-shot verification script
  `verify_database_migration`, modelled as a pure function from an
  abstract database oracle to the list of lines it prints.

Machine-level details: a PostgreSQL UUID is a 128-bit value, embedded
here as its textual form (a `String`); timestamps are modelled as `Nat`
ticks of the database clock (`func.now()` yields the current tick, and
within one INSERT statement every occurrence of `now()` yields the same
tick, matching PostgreSQL transaction-time semantics).
-/

/-- Column types that appear in `models/user.py`: `UUID(as_uuid=True)`,
`String(n)`, `Boolean`, `DateTime(timezone=True)`. -/
inductive ColType where
  | uuid : ColType
  | varchar : Nat → ColType
  | boolean : ColType
  | timestamptz : ColType
deriving DecidableEq

/-- Client-side default rules (`default=` in `mapped_column`): either the
application calls `uuid.uuid4` at flush time, or it uses a boolean
constant. -/
inductive ClientDefault where
  | uuid4 : ClientDefault
  | boolConst : Bool → ClientDefault
deriving DecidableEq

/-- Database-side default expressions used in `models/user.py`:
`server_default='true'` and `server_default=func.now()` /
`onupdate=func.now()`. -/
inductive ServerExpr where
  | sqlTextTrue : ServerExpr
  | sqlNow : ServerExpr
deriving DecidableEq

/-- One `mapped_column` declaration, transcribed field by field from
`models/user.py`. -/
structure ColumnSpec where
  name : String
  ctype : ColType
  primaryKey : Bool
  nullable : Bool
  unique : Bool
  hasIndex : Bool
  clientDefault : Option ClientDefault
  serverDefault : Option ServerExpr
  onupdateRule : Option ServerExpr
deriving DecidableEq

/-- The table name declared by `__tablename__ = "users"`. -/
def usersTablename : String := "users"

/-- The eleven mapped columns of `class User`, in declaration order:
id, email, username, password_hash, first_name, last_name, is_active,
test, is_verified, created_at, updated_at. -/
def usersColumns : List ColumnSpec :=
  [ { name := "id", ctype := ColType.uuid, primaryKey := true,
      nullable := false, unique := false, hasIndex := false,
      clientDefault := some ClientDefault.uuid4,
      serverDefault := none, onupdateRule := none },
    { name := "email", ctype := ColType.varchar 255, primaryKey := false,
      nullable := false, unique := true, hasIndex := true,
      clientDefault := none, serverDefault := none, onupdateRule := none },
    { name := "username", ctype := ColType.varchar 50, primaryKey := false,
      nullable := false, unique := true, hasIndex := true,
      clientDefault := none, serverDefault := none, onupdateRule := none },
    { name := "password_hash", ctype := ColType.varchar 255,
      primaryKey := false, nullable := false, unique := false,
      hasIndex := false, clientDefault := none, serverDefault := none,
      onupdateRule := none },
    { name := "first_name", ctype := ColType.varchar 100,
      primaryKey := false, nullable := true, unique := false,
      hasIndex := false, clientDefault := none, serverDefault := none,
      onupdateRule := none },
    { name := "last_name", ctype := ColType.varchar 100,
      primaryKey := false, nullable := true, unique := false,
      hasIndex := false, clientDefault := none, serverDefault := none,
      onupdateRule := none },
    { name := "is_active", ctype := ColType.boolean, primaryKey := false,
      nullable := false, unique := false, hasIndex := false,
      clientDefault := some (ClientDefault.boolConst true),
      serverDefault := none, onupdateRule := none },
    { name := "test", ctype := ColType.boolean, primaryKey := false,
      nullable := false, unique := false, hasIndex := false,
      clientDefault := some (ClientDefault.boolConst true),
      serverDefault := some ServerExpr.sqlTextTrue, onupdateRule := none },
    { name := "is_verified", ctype := ColType.boolean, primaryKey := false,
      nullable := false, unique := false, hasIndex := false,
      clientDefault := some (ClientDefault.boolConst false),
      serverDefault := none, onupdateRule := none },
    { name := "created_at", ctype := ColType.timestamptz,
      primaryKey := false, nullable := false, unique := false,
      hasIndex := false, clientDefault := none,
      serverDefault := some ServerExpr.sqlNow, onupdateRule := none },
    { name := "updated_at", ctype := ColType.timestamptz,
      primaryKey := false, nullable := false, unique := false,
      hasIndex := false, clientDefault := none,
      serverDefault := some ServerExpr.sqlNow,
      onupdateRule := some ServerExpr.sqlNow } ]

/-- One `Index(...)` entry of `__table_args__`. -/
structure IndexSpec where
  name : String
  columns : List String
deriving DecidableEq

/-- The three indexes declared in `__table_args__`. -/
def usersTableArgs : List IndexSpec :=
  [ { name := "idx_user_email_active", columns := ["email", "is_active"] },
    { name := "idx_user_username_active", columns := ["username", "is_active"] },
    { name := "idx_user_created_at", columns := ["created_at"] } ]

/-- A fully populated `users` row, one field per mapped column of
`class User`; `id` is the textual form of the 128-bit UUID and the two
timestamps are ticks of the database clock. -/
structure User where
  id : String
  email : String
  username : String
  password_hash : String
  first_name : Option String
  last_name : Option String
  is_active : Bool
  test : Bool
  is_verified : Bool
  created_at : Nat
  updated_at : Nat
deriving DecidableEq

/-- Arguments of a `User(...)` construction: the three required string
fields, the two optional name fields, and an optional explicit value for
every column that otherwise receives a default. -/
structure NewUser where
  email : String
  username : String
  password_hash : String
  first_name : Option String
  last_name : Option String
  idGiven : Option String
  is_activeGiven : Option Bool
  testGiven : Option Bool
  is_verifiedGiven : Option Bool
  created_atGiven : Option Nat
  updated_atGiven : Option Nat
deriving DecidableEq

/-- Effect of flushing a newly constructed `User` through the session:
the application layer applies each `default=` rule of `models/user.py`
(`uuid.uuid4` for `id` — `gen` is the value that call returns — and the
boolean constants), and the database engine applies each
`server_default=` rule for columns the INSERT left unset
(`func.now()` yields the clock tick `dbNow` for both timestamps, as both
occurrences evaluate inside the same statement). -/
def ormFlush (n : NewUser) (gen : String) (dbNow : Nat) : User :=
  { id := n.idGiven.getD gen,
    email := n.email,
    username := n.username,
    password_hash := n.password_hash,
    first_name := n.first_name,
    last_name := n.last_name,
    is_active := n.is_activeGiven.getD true,
    test := n.testGiven.getD true,
    is_verified := n.is_verifiedGiven.getD false,
    created_at := n.created_atGiven.getD dbNow,
    updated_at := n.updated_atGiven.getD dbNow }

/-- Field changes an UPDATE may carry: the mutable content columns of the
model. `id` is the immutable primary key and the two timestamp columns
are managed by the declared default rules, so they carry no change. -/
structure UserChanges where
  email : Option String
  username : Option String
  password_hash : Option String
  first_name : Option (Option String)
  last_name : Option (Option String)
  is_active : Option Bool
  test : Option Bool
  is_verified : Option Bool
deriving DecidableEq

/-- Effect of an UPDATE on a persisted row: changed content columns are
overwritten, `created_at` has no `onupdate=` rule and is untouched, and
`updated_at` is refreshed by its `onupdate=func.now()` rule to the
current clock tick. -/
def ormUpdate (r : User) (c : UserChanges) (dbNow : Nat) : User :=
  { id := r.id,
    email := c.email.getD r.email,
    username := c.username.getD r.username,
    password_hash := c.password_hash.getD r.password_hash,
    first_name := c.first_name.getD r.first_name,
    last_name := c.last_name.getD r.last_name,
    is_active := c.is_active.getD r.is_active,
    test := c.test.getD r.test,
    is_verified := c.is_verified.getD r.is_verified,
    created_at := r.created_at,
    updated_at := dbNow }

/-- Error text the engine reports when the unique index on `email`
rejects an INSERT. -/
def emailUniqueViolation : String :=
  "duplicate key value violates unique constraint ix_users_email"

/-- Error text the engine reports when the unique index on `username`
rejects an INSERT. -/
def usernameUniqueViolation : String :=
  "duplicate key value violates unique constraint ix_users_username"

/-- Error text the engine reports when the primary key rejects an
INSERT. -/
def pkeyViolation : String :=
  "duplicate key value violates unique constraint users_pkey"

/-- Engine-side INSERT into the `users` table: enforces the constraints
declared in `models/user.py` — the primary key on `id` and the
`unique=True` markers on `email` and `username` — and on success appends
the row. -/
def insertUser (tbl : List User) (r : User) : Except String (List User) :=
  if tbl.any (fun x => x.id = r.id) then
    Except.error pkeyViolation
  else if tbl.any (fun x => x.email = r.email) then
    Except.error emailUniqueViolation
  else if tbl.any (fun x => x.username = r.username) then
    Except.error usernameUniqueViolation
  else
    Except.ok (tbl ++ [r])

/-- Rendering of a Python `bool` in an f-string. -/
def pyBool (b : Bool) : String := if b then "True" else "False"

/-- A single-quote character, as Python f-strings embed around the
username and email in `__repr__`. -/
def pyQuote : String := String.singleton (Char.ofNat 39)

/-- Transcription of `User.__repr__`: the f-string
`<User(id=..., username=..., email=..., is_active=...)>` built from
exactly the `id`, `username`, `email` and `is_active` fields. -/
def User.reprText (u : User) : String :=
  "<User(id=" ++ u.id ++ ", username=" ++ pyQuote ++ u.username ++ pyQuote ++
    ", email=" ++ pyQuote ++ u.email ++ pyQuote ++
    ", is_active=" ++ pyBool u.is_active ++ ")>"

/-- The fixed test user the verification script constructs:
`User(email="test@example.com", username="testuser",
password_hash="hashed_password_here", first_name="Test",
last_name="User")`. -/
def sampleNewUser : NewUser :=
  { email := "test@example.com",
    username := "testuser",
    password_hash := "hashed_password_here",
    first_name := some "Test",
    last_name := some "User",
    idGiven := none,
    is_activeGiven := none,
    testGiven := none,
    is_verifiedGiven := none,
    created_atGiven := none,
    updated_atGiven := none }

/-- One row of the `information_schema.columns` query of
`verify_migration.py`: column_name, data_type, is_nullable,
column_default (the last may be SQL NULL, and when present may still be
an empty string, which Python truthiness treats like NULL). -/
structure ColumnRow where
  column_name : String
  data_type : String
  is_nullable : String
  column_default : Option String
deriving DecidableEq

/-- One row of the `pg_indexes` query of `verify_migration.py`:
indexname and indexdef. -/
structure IndexRow where
  indexname : String
  indexdef : String
deriving DecidableEq

/-- Oracle for everything `verify_database_migration` asks of the
database engine, in the order the script asks it. Each field is the
outcome of one database interaction: `Except.error e` models a raised
database exception whose printed form is `e`.

* `connect` — `engine.connect()`;
* `tableExistsRow` — `fetchone()` of the `information_schema.tables`
  query for a table named users (`some`/`none` for row/no row);
* `columns` — the rows of the `information_schema.columns` query,
  already sorted by the `ORDER BY ordinal_position` the SQL carries;
* `indexes` — the rows of the `pg_indexes` query, sorted by indexname;
* `alembicVersion` — `fetchone()` of the `alembic_version` query;
* `addCommit` — `session.add` plus `session.commit()` of the test user,
  returning the flushed row on success;
* `queryBack` — `session.query(User).filter_by(email=...).first()`. -/
structure Database where
  connect : Except String Unit
  tableExistsRow : Except String (Option String)
  columns : Except String (List ColumnRow)
  indexes : Except String (List IndexRow)
  alembicVersion : Except String (Option String)
  addCommit : Except String User
  queryBack : Except String (Option User)

/-- Python left-justification `{s:<w}`: pad with spaces to width `w`,
leave the string unchanged when it is already at least that wide. -/
def ljust (s : String) (w : Nat) : String :=
  s ++ String.mk (List.replicate (w - s.length) ' ')

/-- The separator line `"-" * 60` the script prints under each heading. -/
def dashSep : String := String.mk (List.replicate 60 '-')

/-- Formatting of one column row, transcribed from the script:
`nullable` is NULL when is_nullable is YES and NOT NULL otherwise; the
DEFAULT suffix appears only when column_default is truthy (neither SQL
NULL nor the empty string); the line is
`f"  {row[0]:<15} {row[1]:<20} {nullable}{default}"`. -/
def formatColumnLine (r : ColumnRow) : String :=
  let nullable := if r.is_nullable = "YES" then "NULL" else "NOT NULL"
  let dflt :=
    match r.column_default with
    | none => ""
    | some s => if s = "" then "" else " DEFAULT " ++ s
  "  " ++ ljust r.column_name 15 ++ " " ++ ljust r.data_type 20 ++ " " ++
    nullable ++ dflt

/-- Formatting of one index row: `f"  {row[0]}: {row[1]}"`. -/
def formatIndexLine (r : IndexRow) : String :=
  "  " ++ r.indexname ++ ": " ++ r.indexdef

/-- The line printed for the migration version: the script prints the
version number when `fetchone()` found a row and a not-found note
otherwise. -/
def versionLine (v : Option String) : String :=
  match v with
  | some s => "\nCurrent migration version: " ++ s
  | none => "\nNo migration version found!"

/-- Outcome of the first `try` block of `verify_database_migration`:
a caught database exception (`errored`), the early `return` taken when
the users table is missing (`abortedNoTable`), or normal completion
(`ok`). -/
inductive Phase1Result where
  | errored : Phase1Result
  | abortedNoTable : Phase1Result
  | ok : Phase1Result
deriving DecidableEq

/-- The first `try` block of `verify_database_migration`: connection
test, users-table existence check (early `return` when absent), column
listing, index listing, and migration-version lookup. Returns the lines
printed inside the block — lines printed before a raised exception stay
printed — together with how the block ended; a caught exception prints
`Database verification failed: {e}`. -/
def phase1 (db : Database) : List String × Phase1Result :=
  match db.connect with
  | Except.error e =>
    (["Database verification failed: " ++ e], Phase1Result.errored)
  | Except.ok _ =>
    let l1 := ["✅ Database connection successful!"]
    match db.tableExistsRow with
    | Except.error e =>
      (l1 ++ ["Database verification failed: " ++ e], Phase1Result.errored)
    | Except.ok none =>
      (l1 ++ ["Users table not found!"], Phase1Result.abortedNoTable)
    | Except.ok (some _) =>
      let l2 := l1 ++ ["Users table exists!"]
      match db.columns with
      | Except.error e =>
        (l2 ++ ["Database verification failed: " ++ e], Phase1Result.errored)
      | Except.ok cols =>
        let l3 := l2 ++ ["\nUsers table structure:", dashSep] ++
          cols.map formatColumnLine
        match db.indexes with
        | Except.error e =>
          (l3 ++ ["Database verification failed: " ++ e],
            Phase1Result.errored)
        | Except.ok idxs =>
          let l4 := l3 ++ ["\nIndexes on users table:", dashSep] ++
            idxs.map formatIndexLine
          match db.alembicVersion with
          | Except.error e =>
            (l4 ++ ["Database verification failed: " ++ e],
              Phase1Result.errored)
          | Except.ok v => (l4 ++ [versionLine v], Phase1Result.ok)

/-- The second `try` block of `verify_database_migration`: persist the
sample user, print its representation, query it back by email and print
the result when a row came back. Returns the printed lines and whether
the block completed without a caught exception; a caught exception
prints `User model test failed: {e}`. -/
def phase2 (db : Database) : List String × Bool :=
  match db.addCommit with
  | Except.error e => (["User model test failed: " ++ e], false)
  | Except.ok u =>
    let l1 := ["Created test user: " ++ User.reprText u]
    match db.queryBack with
    | Except.error e => (l1 ++ ["User model test failed: " ++ e], false)
    | Except.ok (some q) =>
      (l1 ++ ["Successfully queried user: " ++ User.reprText q], true)
    | Except.ok none => (l1, true)

/-- Transcription of `verify_database_migration` in
`src/verify_migration.py` as the list of lines it prints (one entry per
`print` call): the banner, then the first `try` block; when that block
neither errored nor hit the missing-table `return`, the User-model
banner and the second `try` block; and when the second block completed
without exception, the final success line. The function is total: every
run terminates and failure is signalled only through the printed
text. -/
def verify_database_migration (db : Database) : List String :=
  "Verifying database migration..." ::
    (let p1 := phase1 db
     match p1.2 with
     | Phase1Result.errored => p1.1
     | Phase1Result.abortedNoTable => p1.1
     | Phase1Result.ok =>
       p1.1 ++ ["\nTesting User model..."] ++
         (let p2 := phase2 db
          p2.1 ++
            if p2.2 then
              ["\nDatabase migration verification completed successfully!"]
            else []))

/-- Position of the first database error a run of
`verify_database_migration` encounters, when there is one: each
interaction is consulted only when the script reaches it (the
missing-table `return` stops before the remaining interactions). -/
def firstRunError (db : Database) : Option String :=
  match db.connect with
  | Except.error e => some e
  | Except.ok _ =>
    match db.tableExistsRow with
    | Except.error e => some e
    | Except.ok none => none
    | Except.ok (some _) =>
      match db.columns with
      | Except.error e => some e
      | Except.ok _ =>
        match db.indexes with
        | Except.error e => some e
        | Except.ok _ =>
          match db.alembicVersion with
          | Except.error e => some e
          | Except.ok _ =>
            match db.addCommit with
            | Except.error e => some e
            | Except.ok _ =>
              match db.queryBack with
              | Except.error e => some e
              | Except.ok _ => none

/-- Column metadata rows a healthy database returns for the users table,
used to exercise the verification script at concrete inputs. -/
def okCols : List ColumnRow :=
  [ { column_name := "id", data_type := "uuid", is_nullable := "NO",
      column_default := none },
    { column_name := "email", data_type := "character varying",
      is_nullable := "NO", column_default := none },
    { column_name := "test", data_type := "boolean", is_nullable := "NO",
      column_default := some "true" } ]

/-- Index metadata rows used to exercise the verification script at
concrete inputs. -/
def okIdxs : List IndexRow :=
  [ { indexname := "users_pkey",
      indexdef := "CREATE UNIQUE INDEX users_pkey ON public.users USING btree (id)" } ]

/-- The flushed sample user at a concrete generated id and clock tick. -/
def okUser : User := ormFlush sampleNewUser "7d4f0a52" 5

/-- A database oracle on which every interaction succeeds. -/
def okDb : Database :=
  { connect := Except.ok (),
    tableExistsRow := Except.ok (some "users"),
    columns := Except.ok okCols,
    indexes := Except.ok okIdxs,
    alembicVersion := Except.ok (some "abc123"),
    addCommit := Except.ok okUser,
    queryBack := Except.ok (some okUser) }

/-- A concrete fully populated row, used to probe the textual
representation at concrete inputs. -/
def someUser : User :=
  { id := "id-a", email := "a@x.io", username := "alice",
    password_hash := "hash-1", first_name := none, last_name := none,
    is_active := true, test := true, is_verified := false,
    created_at := 0, updated_at := 0 }

/-- Claim C7: the `User` model declares exactly the eleven columns of the
data model, in declaration order, with the stated types, length bounds,
nullability, uniqueness and single-column indexing (email varchar 255
unique not-null indexed, username varchar 50 unique not-null indexed,
password_hash varchar 255 not-null, first_name and last_name varchar 100
nullable, three not-null booleans, two not-null timezone-aware
timestamps), together with the `__table_args__` indexes on
(email, is_active), (username, is_active) and (created_at). -/
theorem users_schema_matches_data_model :
    usersColumns.length = 11 ∧
    usersColumns.map ColumnSpec.name =
      ["id", "email", "username", "password_hash", "first_name",
        "last_name", "is_active", "test", "is_verified", "created_at",
        "updated_at"] ∧
    (usersColumns.map fun c => (c.ctype, c.nullable, c.unique, c.hasIndex)) =
      [(ColType.uuid, false, false, false),
        (ColType.varchar 255, false, true, true),
        (ColType.varchar 50, false, true, true),
        (ColType.varchar 255, false, false, false),
        (ColType.varchar 100, true, false, false),
        (ColType.varchar 100, true, false, false),
        (ColType.boolean, false, false, false),
        (ColType.boolean, false, false, false),
        (ColType.boolean, false, false, false),
        (ColType.timestamptz, false, false, false),
        (ColType.timestamptz, false, false, false)] ∧
    (usersTableArgs.map fun i => (i.name, i.columns)) =
      [("idx_user_email_active", ["email", "is_active"]),
        ("idx_user_username_active", ["username", "is_active"]),
        ("idx_user_created_at", ["created_at"])] := by
  decide

/-- Claim C4: a `User` constructed without explicit `is_active`,
`is_verified` or `test` values is persisted with is_active = true,
is_verified = false and test = true, and the `test` column additionally
declares a database-side default of true. -/
theorem boolean_defaults_applied (n : NewUser) (gen : String) (t : Nat)
    (ha : n.is_activeGiven = none) (hv : n.is_verifiedGiven = none)
    (ht : n.testGiven = none) :
    (ormFlush n gen t).is_active = true ∧
    (ormFlush n gen t).is_verified = false ∧
    (ormFlush n gen t).test = true ∧
    (usersColumns.filter fun c => c.name = "test").map
        ColumnSpec.serverDefault = [some ServerExpr.sqlTextTrue] := by
  refine ⟨?_, ?_, ?_, by decide⟩ <;> simp [ormFlush, ha, hv, ht]

/-- Witness for claim C4 at the script's own sample user and a concrete
generated id and clock tick. -/
theorem boolean_defaults_applied_witness :
    (ormFlush sampleNewUser "7d4f0a52" 5).is_active = true ∧
    (ormFlush sampleNewUser "7d4f0a52" 5).is_verified = false ∧
    (ormFlush sampleNewUser "7d4f0a52" 5).test = true ∧
    (usersColumns.filter fun c => c.name = "test").map
        ColumnSpec.serverDefault = [some ServerExpr.sqlTextTrue] :=
  boolean_defaults_applied sampleNewUser "7d4f0a52" 5 rfl rfl rfl

/-- Counterexample to claim C2: the `id` column of `models/user.py`
declares no database-side default at all — its default is the
client-side rule `default=uuid.uuid4` — and flushing the script's sample
user stores exactly the value the application-side `uuid.uuid4` call
produced, so the id of a row persisted without an explicit id is
computed by the application layer before the insert, not generated by
the database server. -/
theorem id_default_is_client_side :
    (usersColumns.map fun c => (c.name, c.serverDefault)).head? =
      some ("id", none) ∧
    (usersColumns.map fun c => (c.name, c.clientDefault)).head? =
      some ("id", some ClientDefault.uuid4) ∧
    (ormFlush sampleNewUser "uuid-made-by-the-application" 7).id =
      "uuid-made-by-the-application" := by
  decide

/-- Claim C2 as amended: for every `User` persisted without an
explicitly supplied id, the inserted row's id is the value the
application layer computed before the insert by the client-side
`uuid.uuid4` default; the id column carries no database-side default. -/
theorem id_assigned_by_application_layer (n : NewUser) (gen : String)
    (t : Nat) (h : n.idGiven = none) :
    (ormFlush n gen t).id = gen ∧
    (usersColumns.filter fun c => c.name = "id").map
        (fun c => (c.clientDefault, c.serverDefault)) =
      [(some ClientDefault.uuid4, none)] := by
  exact ⟨by simp [ormFlush, h], by decide⟩

/-- Witness for the amended claim C2 at the script's sample user. -/
theorem id_assigned_by_application_layer_witness :
    (ormFlush sampleNewUser "7d4f0a52" 5).id = "7d4f0a52" ∧
    (usersColumns.filter fun c => c.name = "id").map
        (fun c => (c.clientDefault, c.serverDefault)) =
      [(some ClientDefault.uuid4, none)] :=
  id_assigned_by_application_layer sampleNewUser "7d4f0a52" 5 rfl

/-- Claim C3: a row inserted without explicit timestamp values has
created_at equal to updated_at at the moment of insert (both come from
the same `func.now()` evaluation); any subsequent update leaves
created_at unchanged, a strictly later update strictly increases
updated_at, and updated_at never decreases as the clock advances. -/
theorem timestamps_insert_and_update (n : NewUser) (gen : String)
    (t tU : Nat) (c : UserChanges)
    (hc : n.created_atGiven = none) (hu : n.updated_atGiven = none) :
    (ormFlush n gen t).created_at = (ormFlush n gen t).updated_at ∧
    (ormUpdate (ormFlush n gen t) c tU).created_at =
      (ormFlush n gen t).created_at ∧
    (t < tU →
      (ormFlush n gen t).updated_at <
        (ormUpdate (ormFlush n gen t) c tU).updated_at) ∧
    (t ≤ tU →
      (ormFlush n gen t).updated_at ≤
        (ormUpdate (ormFlush n gen t) c tU).updated_at) := by
  refine ⟨by simp [ormFlush, hc, hu], by simp [ormFlush, ormUpdate], ?_, ?_⟩ <;>
    · intro h
      simpa [ormFlush, ormUpdate, hu] using h

/-- Witness for claim C3 at the script's sample user, insert tick 5 and
update tick 9. -/
theorem timestamps_insert_and_update_witness :
    (ormFlush sampleNewUser "7d4f0a52" 5).created_at =
      (ormFlush sampleNewUser "7d4f0a52" 5).updated_at ∧
    (ormUpdate (ormFlush sampleNewUser "7d4f0a52" 5)
        { email := none, username := none, password_hash := none,
          first_name := none, last_name := none, is_active := some false,
          test := none, is_verified := none } 9).created_at =
      (ormFlush sampleNewUser "7d4f0a52" 5).created_at ∧
    ((5 : Nat) < 9 →
      (ormFlush sampleNewUser "7d4f0a52" 5).updated_at <
        (ormUpdate (ormFlush sampleNewUser "7d4f0a52" 5)
          { email := none, username := none, password_hash := none,
            first_name := none, last_name := none, is_active := some false,
            test := none, is_verified := none } 9).updated_at) ∧
    ((5 : Nat) ≤ 9 →
      (ormFlush sampleNewUser "7d4f0a52" 5).updated_at ≤
        (ormUpdate (ormFlush sampleNewUser "7d4f0a52" 5)
          { email := none, username := none, password_hash := none,
            first_name := none, last_name := none, is_active := some false,
            test := none, is_verified := none } 9).updated_at) :=
  timestamps_insert_and_update sampleNewUser "7d4f0a52" 5 9
    { email := none, username := none, password_hash := none,
      first_name := none, last_name := none, is_active := some false,
      test := none, is_verified := none } rfl rfl

/-- Claim C10: two `User` instances that agree on id, username, email
and is_active have identical textual representations, whatever their
password_hash, name fields, remaining flags or timestamps — in
particular the password hash never reaches the diagnostic output. -/
theorem reprText_independent_of_secret_fields (u v : User)
    (h1 : u.id = v.id) (h2 : u.username = v.username)
    (h3 : u.email = v.email) (h4 : u.is_active = v.is_active) :
    User.reprText u = User.reprText v := by
  simp [User.reprText, h1, h2, h3, h4]

/-- Witness for claim C10: a concrete pair agreeing on the four
displayed fields but differing in password_hash, both names,
is_verified, test and both timestamps has the same representation. -/
theorem reprText_independent_of_secret_fields_witness :
    User.reprText someUser =
      User.reprText { someUser with
        password_hash := "other-hash",
        first_name := some "Alice", last_name := some "A",
        is_verified := true, test := false,
        created_at := 3, updated_at := 4 } :=
  reprText_independent_of_secret_fields someUser
    { someUser with
      password_hash := "other-hash",
      first_name := some "Alice", last_name := some "A",
      is_verified := true, test := false,
      created_at := 3, updated_at := 4 } rfl rfl rfl rfl

/-- Claim C8: the textual representation summarizes exactly the id,
username, email and is_active fields — it is determined by those four
fields and each of the four genuinely shows in it — and it is used
neither for equality (distinct instances can share a representation) nor
for persistence (a successful INSERT stores the row's field values
themselves, the representation nowhere). -/
theorem reprText_summarizes_exactly_four_fields :
    (∀ u v : User, u.id = v.id → u.username = v.username →
      u.email = v.email → u.is_active = v.is_active →
      User.reprText u = User.reprText v) ∧
    (User.reprText { someUser with id := "id-b" } ≠ User.reprText someUser ∧
      User.reprText { someUser with username := "bob" } ≠
        User.reprText someUser ∧
      User.reprText { someUser with email := "b@x.io" } ≠
        User.reprText someUser ∧
      User.reprText { someUser with is_active := false } ≠
        User.reprText someUser) ∧
    (∃ u v : User, User.reprText u = User.reprText v ∧ u ≠ v) ∧
    (∀ (tbl : List User) (r : User) (tblNew : List User),
      insertUser tbl r = Except.ok tblNew → tblNew = tbl ++ [r]) := by
  refine ⟨?_, by decide, ?_, ?_⟩
  · intro u v h1 h2 h3 h4
    simp [User.reprText, h1, h2, h3, h4]
  · exact ⟨someUser, { someUser with password_hash := "other-hash" },
      by decide, by decide⟩
  · intro tbl r tblNew h
    unfold insertUser at h
    split at h
    · simp at h
    · split at h
      · simp at h
      · split at h
        · simp at h
        · injection h with h
          exact h.symm

/-- Witness for claim C8: inserting a concrete row into the empty table
succeeds and stores exactly that row, without consulting the textual
representation. -/
theorem reprText_summarizes_exactly_four_fields_witness :
    ([someUser] : List User) = [] ++ [someUser] :=
  reprText_summarizes_exactly_four_fields.2.2.2 [] someUser [someUser] rfl

/-- Claim C5: on a database where every interaction succeeds, the
verification script performs the stated sequence — connection banner,
users-table existence, column listing in the order the ordinal-sorted
query returned, index listing, migration-version line, then the sample
insert and query-back — each success line staying printed; and when the
users table is absent the procedure stops right after printing the
missing-table message, running none of the later checks. -/
theorem verification_checks_run_in_stated_order :
    (∀ (db : Database) (trow : String) (cols : List ColumnRow)
        (idxs : List IndexRow) (v : Option String) (u q : User),
      db.connect = Except.ok () →
      db.tableExistsRow = Except.ok (some trow) →
      db.columns = Except.ok cols →
      db.indexes = Except.ok idxs →
      db.alembicVersion = Except.ok v →
      db.addCommit = Except.ok u →
      db.queryBack = Except.ok (some q) →
      verify_database_migration db =
        ["Verifying database migration...",
          "✅ Database connection successful!",
          "Users table exists!",
          "\nUsers table structure:", dashSep] ++
          cols.map formatColumnLine ++
          ["\nIndexes on users table:", dashSep] ++
          idxs.map formatIndexLine ++
          [versionLine v,
            "\nTesting User model...",
            "Created test user: " ++ User.reprText u,
            "Successfully queried user: " ++ User.reprText q,
            "\nDatabase migration verification completed successfully!"]) ∧
    (∀ db : Database,
      db.connect = Except.ok () →
      db.tableExistsRow = Except.ok none →
      verify_database_migration db =
        ["Verifying database migration...",
          "✅ Database connection successful!",
          "Users table not found!"]) := by
  constructor
  · intro db trow cols idxs v u q h1 h2 h3 h4 h5 h6 h7
    simp [verify_database_migration, phase1, phase2, h1, h2, h3, h4, h5,
      h6, h7]
  · intro db h1 h2
    simp [verify_database_migration, phase1, h1, h2]

/-- Witness for claim C5 at the all-success oracle `okDb`. -/
theorem verification_checks_run_in_stated_order_witness :
    verify_database_migration okDb =
      ["Verifying database migration...",
        "✅ Database connection successful!",
        "Users table exists!",
        "\nUsers table structure:", dashSep] ++
        okCols.map formatColumnLine ++
        ["\nIndexes on users table:", dashSep] ++
        okIdxs.map formatIndexLine ++
        [versionLine (some "abc123"),
          "\nTesting User model...",
          "Created test user: " ++ User.reprText okUser,
          "Successfully queried user: " ++ User.reprText okUser,
          "\nDatabase migration verification completed successfully!"] :=
  verification_checks_run_in_stated_order.1 okDb "users" okCols okIdxs
    (some "abc123") okUser okUser rfl rfl rfl rfl rfl rfl rfl

/-- Claim C9: when the sample insert succeeds but the query-back by
email finds no row, the script skips the queried-user line yet still
ends with the final completed-successfully message — the success report
is not conditioned on the query-back finding the inserted user. -/
theorem final_success_not_conditioned_on_queryback
    (db : Database) (trow : String) (cols : List ColumnRow)
    (idxs : List IndexRow) (v : Option String) (u : User)
    (h1 : db.connect = Except.ok ())
    (h2 : db.tableExistsRow = Except.ok (some trow))
    (h3 : db.columns = Except.ok cols)
    (h4 : db.indexes = Except.ok idxs)
    (h5 : db.alembicVersion = Except.ok v)
    (h6 : db.addCommit = Except.ok u)
    (h7 : db.queryBack = Except.ok none) :
    verify_database_migration db =
      ["Verifying database migration...",
        "✅ Database connection successful!",
        "Users table exists!",
        "\nUsers table structure:", dashSep] ++
        cols.map formatColumnLine ++
        ["\nIndexes on users table:", dashSep] ++
        idxs.map formatIndexLine ++
        [versionLine v,
          "\nTesting User model...",
          "Created test user: " ++ User.reprText u,
          "\nDatabase migration verification completed successfully!"] := by
  simp [verify_database_migration, phase1, phase2, h1, h2, h3, h4, h5,
    h6, h7]

/-- Witness for claim C9: on `okDb` with an empty query-back the run
still ends with the completed-successfully line. -/
theorem final_success_not_conditioned_on_queryback_witness :
    verify_database_migration { okDb with queryBack := Except.ok none } =
      ["Verifying database migration...",
        "✅ Database connection successful!",
        "Users table exists!",
        "\nUsers table structure:", dashSep] ++
        okCols.map formatColumnLine ++
        ["\nIndexes on users table:", dashSep] ++
        okIdxs.map formatIndexLine ++
        [versionLine (some "abc123"),
          "\nTesting User model...",
          "Created test user: " ++ User.reprText okUser,
          "\nDatabase migration verification completed successfully!"] :=
  final_success_not_conditioned_on_queryback
    { okDb with queryBack := Except.ok none } "users" okCols okIdxs
    (some "abc123") okUser rfl rfl rfl rfl rfl rfl rfl

/-- Claim C6, first half plus reporting half: inserting a second `User`
carrying an already-present email (under a fresh primary key, as
generated ids are) is rejected by the email uniqueness constraint; and
when the sample-user phase of the verification script meets such a
database error at commit, the script prints the User-model failure line
and ends the run there without crashing. -/
theorem duplicate_email_insert_fails_and_is_reported :
    (∀ (tbl tbl1 : List User) (u1 u2 : User),
      u1.email = u2.email →
      insertUser tbl u1 = Except.ok tbl1 →
      (∀ x ∈ tbl1, x.id ≠ u2.id) →
      insertUser tbl1 u2 = Except.error emailUniqueViolation) ∧
    (∀ (db : Database) (trow : String) (cols : List ColumnRow)
        (idxs : List IndexRow) (v : Option String) (e : String),
      db.connect = Except.ok () →
      db.tableExistsRow = Except.ok (some trow) →
      db.columns = Except.ok cols →
      db.indexes = Except.ok idxs →
      db.alembicVersion = Except.ok v →
      db.addCommit = Except.error e →
      verify_database_migration db =
        ["Verifying database migration...",
          "✅ Database connection successful!",
          "Users table exists!",
          "\nUsers table structure:", dashSep] ++
          cols.map formatColumnLine ++
          ["\nIndexes on users table:", dashSep] ++
          idxs.map formatIndexLine ++
          [versionLine v,
            "\nTesting User model...",
            "User model test failed: " ++ e]) := by
  constructor
  · intro tbl tbl1 u1 u2 hemail hins hfresh
    have htbl : tbl1 = tbl ++ [u1] := by
      unfold insertUser at hins
      split at hins
      · simp at hins
      · split at hins
        · simp at hins
        · split at hins
          · simp at hins
          · injection hins with h
            exact h.symm
    subst htbl
    have hid : (tbl ++ [u1]).any (fun x => x.id = u2.id) = false := by
      simp only [List.any_eq_false, decide_eq_true_eq]
      intro x hx
      exact hfresh x hx
    have hmail : (tbl ++ [u1]).any (fun x => x.email = u2.email) = true := by
      simp only [List.any_eq_true, decide_eq_true_eq]
      exact ⟨u1, List.mem_append_right _ (List.mem_singleton_self u1), hemail⟩
    unfold insertUser
    rw [hid, hmail]
    simp
  · intro db trow cols idxs v e h1 h2 h3 h4 h5 h6
    simp [verify_database_migration, phase1, phase2, h1, h2, h3, h4, h5, h6]

/-- Witness for claim C6: a second concrete user with the same email as
`someUser` but a fresh id and username is rejected with the email
uniqueness violation. -/
theorem duplicate_email_insert_fails_witness :
    insertUser [someUser]
        { someUser with id := "id-b", username := "bob" } =
      Except.error emailUniqueViolation :=
  duplicate_email_insert_fails_and_is_reported.1 [] [someUser] someUser
    { someUser with id := "id-b", username := "bob" } rfl rfl
    (by decide)

/-- Auxiliary: the last printed line of a run whose output ends in a
given line. -/
theorem getLast_of_append_singleton (l : List String) (a : String) :
    (l ++ [a]).getLast? = some a := by
  rw [List.getLast?_append_cons]
  rfl

/-- Claim C1: whenever a run of the verification procedure meets a
database error — at connection, at any catalog inspection, or during the
sample write/read — the run's last printed line is the corresponding
failure message with its descriptive prefix and the caught error text,
i.e. the procedure prints the failure and returns early; the embedding
`verify_database_migration` is a total function, so every run terminates
cleanly and signals failure only through printed text. -/
theorem verify_catches_all_database_errors (db : Database) (e : String)
    (h : firstRunError db = some e) :
    (verify_database_migration db).getLast? =
        some ("Database verification failed: " ++ e) ∨
      (verify_database_migration db).getLast? =
        some ("User model test failed: " ++ e) := by
  unfold firstRunError at h
  cases hc : db.connect with
  | error e1 =>
    simp only [hc, Option.some.injEq] at h
    subst h
    left
    have hout : verify_database_migration db =
        ["Verifying database migration..."] ++
          ["Database verification failed: " ++ e1] := by
      simp [verify_database_migration, phase1, hc]
    rw [hout, getLast_of_append_singleton]
  | ok un =>
    simp only [hc] at h
    cases ht : db.tableExistsRow with
    | error e1 =>
      simp only [ht, Option.some.injEq] at h
      subst h
      left
      have hout : verify_database_migration db =
          ["Verifying database migration...",
            "✅ Database connection successful!"] ++
            ["Database verification failed: " ++ e1] := by
        simp [verify_database_migration, phase1, hc, ht]
      rw [hout, getLast_of_append_singleton]
    | ok trow =>
      cases trow with
      | none =>
        simp only [ht] at h
        exact Option.noConfusion h
      | some trow =>
        simp only [ht] at h
        cases hcols : db.columns with
        | error e1 =>
          simp only [hcols, Option.some.injEq] at h
          subst h
          left
          have hout : verify_database_migration db =
              ["Verifying database migration...",
                "✅ Database connection successful!",
                "Users table exists!"] ++
                ["Database verification failed: " ++ e1] := by
            simp [verify_database_migration, phase1, hc, ht, hcols]
          rw [hout, getLast_of_append_singleton]
        | ok cols =>
          simp only [hcols] at h
          cases hidx : db.indexes with
          | error e1 =>
            simp only [hidx, Option.some.injEq] at h
            subst h
            left
            have hout : verify_database_migration db =
                (["Verifying database migration...",
                  "✅ Database connection successful!",
                  "Users table exists!",
                  "\nUsers table structure:", dashSep] ++
                  cols.map formatColumnLine) ++
                  ["Database verification failed: " ++ e1] := by
              simp [verify_database_migration, phase1, hc, ht, hcols, hidx]
            rw [hout, getLast_of_append_singleton]
          | ok idxs =>
            simp only [hidx] at h
            cases hv : db.alembicVersion with
            | error e1 =>
              simp only [hv, Option.some.injEq] at h
              subst h
              left
              have hout : verify_database_migration db =
                  (["Verifying database migration...",
                    "✅ Database connection successful!",
                    "Users table exists!",
                    "\nUsers table structure:", dashSep] ++
                    cols.map formatColumnLine ++
                    ["\nIndexes on users table:", dashSep] ++
                    idxs.map formatIndexLine) ++
                    ["Database verification failed: " ++ e1] := by
                simp [verify_database_migration, phase1, hc, ht, hcols,
                  hidx, hv]
              rw [hout, getLast_of_append_singleton]
            | ok v =>
              simp only [hv] at h
              cases hadd : db.addCommit with
              | error e1 =>
                simp only [hadd, Option.some.injEq] at h
                subst h
                right
                have hout : verify_database_migration db =
                    (["Verifying database migration...",
                      "✅ Database connection successful!",
                      "Users table exists!",
                      "\nUsers table structure:", dashSep] ++
                      cols.map formatColumnLine ++
                      ["\nIndexes on users table:", dashSep] ++
                      idxs.map formatIndexLine ++
                      [versionLine v, "\nTesting User model..."]) ++
                      ["User model test failed: " ++ e1] := by
                  simp [verify_database_migration, phase1, phase2, hc, ht,
                    hcols, hidx, hv, hadd]
                rw [hout, getLast_of_append_singleton]
              | ok u =>
                simp only [hadd] at h
                cases hq : db.queryBack with
                | error e1 =>
                  simp only [hq, Option.some.injEq] at h
                  subst h
                  right
                  have hout : verify_database_migration db =
                      (["Verifying database migration...",
                        "✅ Database connection successful!",
                        "Users table exists!",
                        "\nUsers table structure:", dashSep] ++
                        cols.map formatColumnLine ++
                        ["\nIndexes on users table:", dashSep] ++
                        idxs.map formatIndexLine ++
                        [versionLine v, "\nTesting User model...",
                          "Created test user: " ++ User.reprText u]) ++
                        ["User model test failed: " ++ e1] := by
                    simp [verify_database_migration, phase1, phase2, hc,
                      ht, hcols, hidx, hv, hadd, hq]
                  rw [hout, getLast_of_append_singleton]
                | ok q =>
                  simp only [hq] at h
                  exact Option.noConfusion h

/-- Witness for claim C1: on an oracle whose connection attempt raises,
the run ends with the database-verification failure line. -/
theorem verify_catches_all_database_errors_witness :
    (verify_database_migration
          { okDb with connect := Except.error "connection refused" }).getLast? =
        some ("Database verification failed: " ++ "connection refused") ∨
      (verify_database_migration
          { okDb with connect := Except.error "connection refused" }).getLast? =
        some ("User model test failed: " ++ "connection refused") :=
  verify_catches_all_database_errors
    { okDb with connect := Except.error "connection refused" }
    "connection refused" rfl
